import Mathlib

/-!
Shallow embedding of the Wix webhook server (`src/app.py`) and proofs about it.

The program keeps an in-memory dictionary `app_instance_data` mapping a tenant
("instance") id to a credential record, admits tenants through a JWT-verified
webhook handler (`handle_wix_webhook`, app.py lines 67-117), obtains bearer
tokens through `get_access_token` (app.py lines 40-64), and refreshes them in a
periodic background sweep (`token_refresher_task`, app.py lines 120-130).

Modelling conventions:
* Python/JSON values are modelled by the inductive `PyVal`.  JSON numbers with a
  fraction or exponent (Python floats) are kept as exact decimals `m * 10 ^ e`;
  binary floating-point rounding, overflow to infinity and underflow to zero are
  not modelled (no claim exercises them).
* Machine I/O is modelled by value-passing: the HTTP response of the Wix OAuth
  endpoint is an explicit `HttpOutcome` argument, and the webhook handler and
  the refresher take the token-exchange call as a function argument
  `exchange : PyVal → Except PyExc PyVal` standing for
  `fun id => get_access_token (net id)` for the network behaviour `net` seen at
  that call.
* Exceptions are modelled with `Except`; an escaping exception carries the
  store state at the moment it is raised, since mutations made before the raise
  persist in the Python program.
* `jwt.decode(token, key, algorithms=["RS256"])` (PyJWT) is modelled on a token
  that already parses into header/payload/signature segments: PyJWT first checks
  the header's `alg` against the allowed list (raising `InvalidAlgorithmError`
  when it is not listed) and only then verifies the signature (raising
  `InvalidSignatureError` on failure).  Structurally malformed tokens
  (`DecodeError`) and registered-claim validation (`exp`/`nbf`) are outside the
  model; the modelled tokens carry no registered claims.
* `time.time()` is modelled as an integer instant `now`; the re-reads of
  `time.time()` inside one handler call or one sweep iteration are modelled as
  the same instant.
-/

/-- Python values as they can occur in this program: JSON-decoded data and the
values stored in `app_instance_data` records.  `vNum m e` is the float written
as the decimal `m * 10 ^ e`; `vInf`/`vNaN` are the infinite/NaN float constants
that Python's `json.loads` accepts (`Infinity`, `-Infinity`, `NaN`). -/
inductive PyVal where
  | vNone
  | vBool (b : Bool)
  | vInt (n : Int)
  | vNum (m : Int) (e : Int)
  | vInf (neg : Bool)
  | vNaN
  | vStr (s : String)
  | vList (l : List PyVal)
  | vDict (d : List (String × PyVal))

/-- Python truthiness (`if x:`) of a `PyVal`: `None`, `False`, zero, the empty
string and empty containers are falsy, everything else truthy. -/
def truthy : PyVal → Bool
  | .vNone => false
  | .vBool b => b
  | .vInt n => decide (n ≠ 0)
  | .vNum m _ => decide (m ≠ 0)
  | .vInf _ => true
  | .vNaN => true
  | .vStr s => decide (s ≠ "")
  | .vList l => !l.isEmpty
  | .vDict d => !d.isEmpty

/-- Whether a `PyVal` is hashable in Python, i.e. usable as a dictionary key.
Lists and dicts are unhashable; using one as a key raises `TypeError`. -/
def hashable : PyVal → Bool
  | .vList _ => false
  | .vDict _ => false
  | _ => true

/-- Numeric view of a `PyVal`, for Python's cross-type numeric equality
(`True == 1`, `1 == 1.0`): booleans and ints and floats compare by value. -/
def pyNumVal : PyVal → Option ℚ
  | .vBool b => some (if b then 1 else 0)
  | .vInt n => some (n : ℚ)
  | .vNum m e => some ((m : ℚ) * (10 : ℚ) ^ e)
  | _ => none

/-- Key equality used by the store dictionary, modelling Python `dict` key
matching for the keys this program can produce.  `vNaN` matches itself because
the program always looks a key up with the very object it inserted, and Python
dict lookup short-circuits on identity. -/
def pyKeyEq (a b : PyVal) : Bool :=
  match a, b with
  | .vNone, .vNone => true
  | .vStr x, .vStr y => decide (x = y)
  | .vNaN, .vNaN => true
  | .vInf x, .vInf y => decide (x = y)
  | _, _ =>
    match pyNumVal a, pyNumVal b with
    | some x, some y => decide (x = y)
    | _, _ => false

/-- Lookup in a JSON object / Python dict with default `None`, modelling
`d.get(k)`. -/
def dict_get : List (String × PyVal) → String → PyVal
  | [], _ => .vNone
  | (k0, v0) :: rest, k => if k0 = k then v0 else dict_get rest k

/-- Insert into a JSON object under construction: on a duplicate key the value
is replaced in place, as in a Python dict (last duplicate wins, position of the
first occurrence kept). -/
def objInsert : List (String × PyVal) → String → PyVal → List (String × PyVal)
  | [], k, v => [(k, v)]
  | (k0, v0) :: rest, k, v => if k0 = k then (k0, v) :: rest else (k0, v0) :: objInsert rest k v

/-- Whitespace skipping of the JSON grammar (space, tab, newline, carriage
return). -/
def skipWs : List Char → List Char
  | [] => []
  | c :: cs => if c = ' ' ∨ c = '\t' ∨ c = '\n' ∨ c = '\r' then skipWs cs else c :: cs

/-- Value of a hexadecimal digit, for `\uXXXX` string escapes. -/
def parseHexDigit (c : Char) : Option Nat :=
  if '0' ≤ c ∧ c ≤ '9' then some (c.toNat - 48)
  else if 'a' ≤ c ∧ c ≤ 'f' then some (c.toNat - 87)
  else if 'A' ≤ c ∧ c ≤ 'F' then some (c.toNat - 55)
  else none

/-- Body of a JSON string literal after the opening quote: returns the decoded
characters and the input following the closing quote, or `none` on an
unterminated string, an unescaped control character (rejected by Python's
strict mode) or a bad escape.  Surrogate-pair recombination of `\u` escapes is
not modelled. -/
def parseStringChars : List Char → Option (List Char × List Char)
  | [] => none
  | c :: cs =>
    if c = '"' then some ([], cs)
    else if c.toNat < 32 then none
    else if c = '\\' then
      match cs with
      | [] => none
      | e :: cs2 =>
        if e = 'u' then
          match cs2 with
          | h1 :: h2 :: h3 :: h4 :: cs3 =>
            match parseHexDigit h1, parseHexDigit h2, parseHexDigit h3, parseHexDigit h4 with
            | some a, some b, some c3, some d =>
              match parseStringChars cs3 with
              | some (out, rest) => some (Char.ofNat (((a * 16 + b) * 16 + c3) * 16 + d) :: out, rest)
              | none => none
            | _, _, _, _ => none
          | _ => none
        else
          let esc : Option Char :=
            if e = '"' then some '"'
            else if e = '\\' then some '\\'
            else if e = '/' then some '/'
            else if e = 'b' then some '\x08'
            else if e = 'f' then some '\x0c'
            else if e = 'n' then some '\n'
            else if e = 'r' then some '\r'
            else if e = 't' then some '\t'
            else none
          match esc with
          | none => none
          | some ch =>
            match parseStringChars cs2 with
            | some (out, rest) => some (ch :: out, rest)
            | none => none
    else
      match parseStringChars cs with
      | some (out, rest) => some (c :: out, rest)
      | none => none

/-- Natural number denoted by a list of decimal digits. -/
def digitsToNat (ds : List Char) : Nat := ds.foldl (fun n c => n * 10 + (c.toNat - 48)) 0

/-- JSON number at the head of the input, per the JSON grammar
`-?(0|[1-9][0-9]*)(\.[0-9]+)?([eE][+-]?[0-9]+)?`.  A literal without fraction
and exponent is a Python int (`vInt`); any other is a float, kept as the exact
decimal `vNum`. -/
def parseNumber (cs : List Char) : Option (PyVal × List Char) :=
  let s1 : Bool × List Char := match cs with
    | c :: t => if c = '-' then (true, t) else (false, cs)
    | [] => (false, cs)
  let neg := s1.1
  let cs1 := s1.2
  let ips := cs1.span Char.isDigit
  let ip := ips.1
  let cs2 := ips.2
  if ip.isEmpty then none
  else if ip.length > 1 ∧ ip.headD '0' = '0' then none
  else
    let fracRes : Option (List Char × List Char) := match cs2 with
      | '.' :: t =>
        let fsr := t.span Char.isDigit
        if fsr.1.isEmpty then none else some (fsr.1, fsr.2)
      | _ => some ([], cs2)
    match fracRes with
    | none => none
    | some (fs, cs3) =>
      let expRes : Option (Option (Bool × List Char) × List Char) :=
        match cs3 with
        | c :: t =>
          if c = 'e' ∨ c = 'E' then
            let st : Bool × List Char := match t with
              | s :: u => if s = '+' then (false, u) else if s = '-' then (true, u) else (false, t)
              | [] => (false, t)
            let esr := st.2.span Char.isDigit
            if esr.1.isEmpty then none else some (some (st.1, esr.1), esr.2)
          else some (none, cs3)
        | [] => some (none, cs3)
      match expRes with
      | none => none
      | some (expPart, rest) =>
        let mantNat : Nat := digitsToNat (ip ++ fs)
        let mant : Int := if neg then -(mantNat : Int) else (mantNat : Int)
        match fs, expPart with
        | [], none => some (.vInt mant, rest)
        | _, _ =>
          let e10 : Int :=
            (match expPart with
             | some (esgn, es) => if esgn then -((digitsToNat es : Int)) else ((digitsToNat es : Int))
             | none => 0) - fs.length
          some (.vNum mant e10, rest)

/-- Task of the recursive-descent JSON parser: a value, the element or
separator position inside an array, or the member or separator position inside
an object. -/
inductive PTask where
  | pvalue (cs : List Char)
  | arrElem (acc : List PyVal) (cs : List Char)
  | arrAfter (acc : List PyVal) (cs : List Char)
  | objMember (acc : List (String × PyVal)) (cs : List Char)
  | objAfter (acc : List (String × PyVal)) (cs : List Char)

/-- Recursive-descent JSON parser, fuelled to make the nesting recursion
structural; `json_loads` supplies fuel ample for every input.  Accepts exactly
what Python's `json.loads` accepts by default, including the non-standard
`NaN`, `Infinity` and `-Infinity` constants. -/
def parseF : Nat → PTask → Except String (PyVal × List Char)
  | 0, _ => .error "Expecting value (nesting budget exhausted)"
  | f + 1, t =>
    match t with
    | .pvalue cs =>
      match skipWs cs with
      | [] => .error "Expecting value"
      | c :: rest =>
        if c = '\x7b' then
          match skipWs rest with
          | '\x7d' :: r => .ok (.vDict [], r)
          | r2 => parseF f (.objMember [] r2)
        else if c = '[' then
          match skipWs rest with
          | ']' :: r => .ok (.vList [], r)
          | r2 => parseF f (.arrElem [] r2)
        else if c = '"' then
          match parseStringChars rest with
          | some (out, r) => .ok (.vStr (String.mk out), r)
          | none => .error "Unterminated string starting at"
        else if c = 't' then
          match rest with
          | 'r' :: 'u' :: 'e' :: r => .ok (.vBool true, r)
          | _ => .error "Expecting value"
        else if c = 'f' then
          match rest with
          | 'a' :: 'l' :: 's' :: 'e' :: r => .ok (.vBool false, r)
          | _ => .error "Expecting value"
        else if c = 'n' then
          match rest with
          | 'u' :: 'l' :: 'l' :: r => .ok (.vNone, r)
          | _ => .error "Expecting value"
        else if c = 'N' then
          match rest with
          | 'a' :: 'N' :: r => .ok (.vNaN, r)
          | _ => .error "Expecting value"
        else if c = 'I' then
          match rest with
          | 'n' :: 'f' :: 'i' :: 'n' :: 'i' :: 't' :: 'y' :: r => .ok (.vInf false, r)
          | _ => .error "Expecting value"
        else if c = '-' then
          match rest with
          | 'I' :: 'n' :: 'f' :: 'i' :: 'n' :: 'i' :: 't' :: 'y' :: r => .ok (.vInf true, r)
          | _ =>
            match parseNumber (c :: rest) with
            | some (v, r) => .ok (v, r)
            | none => .error "Expecting value"
        else
          match parseNumber (c :: rest) with
          | some (v, r) => .ok (v, r)
          | none => .error "Expecting value"
    | .arrElem acc cs =>
      match parseF f (.pvalue cs) with
      | .error m => .error m
      | .ok (v, r) => parseF f (.arrAfter (v :: acc) r)
    | .arrAfter acc cs =>
      match skipWs cs with
      | ',' :: r => parseF f (.arrElem acc r)
      | ']' :: r => .ok (.vList acc.reverse, r)
      | _ => .error "Expecting comma delimiter"
    | .objMember acc cs =>
      match skipWs cs with
      | '"' :: r =>
        match parseStringChars r with
        | none => .error "Unterminated string starting at"
        | some (key, r2) =>
          match skipWs r2 with
          | ':' :: r3 =>
            match parseF f (.pvalue r3) with
            | .error m => .error m
            | .ok (v, r4) => parseF f (.objAfter (objInsert acc (String.mk key) v) r4)
          | _ => .error "Expecting colon delimiter"
      | _ => .error "Expecting property name enclosed in double quotes"
    | .objAfter acc cs =>
      match skipWs cs with
      | ',' :: r => parseF f (.objMember acc r)
      | '\x7d' :: r => .ok (.vDict acc, r)
      | _ => .error "Expecting comma delimiter"

/-- Python's `json.loads` on a string: parse one JSON value and require the
rest of the input to be whitespace. -/
def json_loads (s : String) : Except String PyVal :=
  match parseF (2 * s.data.length + 8) (.pvalue s.data) with
  | .error m => .error m
  | .ok (v, rest) =>
    match skipWs rest with
    | [] => .ok v
    | _ => .error "Extra data"

/-- Python exceptions that can escape the operations modelled here. -/
inductive PyExc where
  | invalidSignatureError
  | invalidAlgorithmError (msg : String)
  | jsonDecodeError (msg : String)
  | typeError (msg : String)
  | attributeError (msg : String)

/-- Message text of an exception, standing for Python's `str(e)` in the
handler's `f"Internal Server Error: {str(e)}"` (schematic: the claims only
inspect the status code of `500` responses). -/
def excMsg : PyExc → String
  | .invalidSignatureError => "Signature verification failed"
  | .invalidAlgorithmError m => m
  | .jsonDecodeError m => m
  | .typeError m => m
  | .attributeError m => m

/-- `json.loads` as called by the handler on the payload's `data` value: on a
string it parses JSON (failure raises `json.JSONDecodeError`); on any other
value it raises `TypeError`, as CPython's `json.loads` does for non-str,
non-bytes input.  All values reaching this call are JSON-decoded JWT claims, so
the bytes case cannot occur. -/
def json_loads_py (v : PyVal) : Except PyExc PyVal :=
  match v with
  | .vStr s =>
    match json_loads s with
    | .error m => .error (.jsonDecodeError m)
    | .ok w => .ok w
  | _ => .error (.typeError "the JSON object must be str, bytes or bytearray")

/-- The `.get(k)` attribute call on a parsed value (`webhook_data.get('instanceId')`,
app.py line 88): works on a dict, raises `AttributeError` on any other value. -/
def py_attr_get (v : PyVal) (k : String) : Except PyExc PyVal :=
  match v with
  | .vDict d => .ok (dict_get d k)
  | _ => .error (.attributeError "object has no attribute get")

/-- A signed webhook token as it reaches `jwt.decode` (app.py line 76), already
split into its three segments: `alg` is the (attacker-controlled) header
algorithm field, `payload` the claim set it carries, and `sigValid` says
whether the signature segment verifies against the pinned
`WIX_WEBHOOK_PUBLIC_KEY`.  A tampered payload or a token signed under a
different key has `sigValid = false`. -/
structure JwtToken where
  alg : String
  payload : List (String × PyVal)
  sigValid : Bool

/-- PyJWT's `jwt.decode(token, key, algorithms)` on a structurally well-formed
token: the header algorithm is checked against the allowed list first
(`InvalidAlgorithmError` when absent from it — note this is not a subclass of
`InvalidSignatureError`), then the signature is verified
(`InvalidSignatureError` on failure), then the payload is returned. -/
def jwt_decode (tok : JwtToken) (algorithms : List String) :
    Except PyExc (List (String × PyVal)) :=
  if tok.alg ∉ algorithms then
    .error (.invalidAlgorithmError "The specified alg value is not allowed")
  else if tok.sigValid then .ok tok.payload
  else .error .invalidSignatureError

/-- A credential record of `app_instance_data` (app.py lines 91-95): the dict
`\x7b'instance_id': ..., 'access_token': ..., 'expires_at': ...\x7d`. -/
structure Record where
  instance_id : PyVal
  access_token : PyVal
  expires_at : Int

/-- The store `app_instance_data`: an insertion-ordered dictionary from tenant
id to credential record, as a key-value list. -/
abbrev Store := List (PyVal × Record)

/-- Assignment `store[k] = v`: replace the value of an existing matching key in
place, else append. -/
def storeSet : Store → PyVal → Record → Store
  | [], k, v => [(k, v)]
  | (k0, v0) :: rest, k, v =>
    if pyKeyEq k0 k then (k0, v) :: rest else (k0, v0) :: storeSet rest k v

/-- Lookup `store[k]` as an option. -/
def storeGet : Store → PyVal → Option Record
  | [], _ => none
  | (k0, v0) :: rest, k => if pyKeyEq k0 k then some v0 else storeGet rest k

/-- Possible outcome of the HTTPS `POST` to the Wix OAuth token endpoint
as seen by `get_access_token`: either the `requests` call raises a
`RequestException` (connection failure, timeout, ...), or a response arrives
with a status code and a body whose JSON parse either succeeds or fails. -/
inductive HttpOutcome where
  | transportError (msg : String)
  | response (status : Nat) (body : Except String PyVal)

/-- The token-exchange client `get_access_token` (app.py lines 40-64) as a
function of the network outcome.  `response.raise_for_status()` raises
`HTTPError` for status codes 400-599; `HTTPError` and (in the `requests`
versions this code runs with, ≥ 2.27) the `JSONDecodeError` of
`response.json()` are subclasses of `RequestException` and are caught,
returning `None`.  On a parsed JSON object the result is
`token_info.get("access_token")` (default `None`); on any other parsed JSON
value the `.get` attribute access raises `AttributeError`, which is not caught. -/
def get_access_token (outcome : HttpOutcome) : Except PyExc PyVal :=
  match outcome with
  | .transportError _ => .ok .vNone
  | .response status body =>
    if 400 ≤ status ∧ status < 600 then .ok .vNone
    else
      match body with
      | .error _ => .ok .vNone
      | .ok j =>
        match j with
        | .vDict d => .ok (dict_get d "access_token")
        | _ => .error (.attributeError "object has no attribute get")

/-- The token-exchange call as the webhook handler and the refresher see it:
`get_access_token` applied to the network behaviour `net` of the moment. -/
def exchange_via_http (net : PyVal → HttpOutcome) (id : PyVal) : Except PyExc PyVal :=
  get_access_token (net id)

/-- Admission of an extracted tenant id (app.py lines 90-103): overwrite the
record with a null token and zero expiry, then call the token-exchange client;
a truthy token is stored with `expires_at = now + 14400`.  If the exchange call
raises, the reset record is already in the store. -/
def admit_instance (exchange : PyVal → Except PyExc PyVal) (now : Int) (instance_id : PyVal)
    (store : Store) : Except (PyExc × Store) Store :=
  let s1 := storeSet store instance_id ⟨instance_id, .vNone, 0⟩
  match exchange instance_id with
  | .error e => .error (e, s1)
  | .ok token =>
    .ok (if truthy token then storeSet s1 instance_id ⟨instance_id, token, now + 14400⟩ else s1)

/-- Body of the `try` block of `handle_wix_webhook` (app.py lines 73-107).
Errors carry the store state at the raise. -/
def webhook_try_body (exchange : PyVal → Except PyExc PyVal) (now : Int) (tok : JwtToken)
    (store : Store) : Except (PyExc × Store) ((Nat × String) × Store) :=
  match jwt_decode tok ["RS256"] with
  | .error e => .error (e, store)
  | .ok payload =>
    let webhook_data_str := dict_get payload "data"
    if truthy webhook_data_str then
      match json_loads_py webhook_data_str with
      | .error e => .error (e, store)
      | .ok webhook_data =>
        match py_attr_get webhook_data "instanceId" with
        | .error e => .error (e, store)
        | .ok instance_id =>
          if truthy instance_id then
            if hashable instance_id then
              match admit_instance exchange now instance_id store with
              | .error es => .error es
              | .ok s2 => .ok ((200, "Webhook processed successfully"), s2)
            else .error (.typeError "unhashable type", store)
          else .ok ((400, "Payload missing instanceId"), store)
    else .ok ((400, "Payload missing data field"), store)

/-- The webhook handler `handle_wix_webhook` (app.py lines 67-117): the `try`
body with the route's `except` dispatch — `InvalidSignatureError` to
`(401, "Invalid signature")`, `json.JSONDecodeError` to
`(400, "Invalid JSON in payload data")`, any other exception to a `500`.
Returns the response pair and the store after the call. -/
def handle_wix_webhook (exchange : PyVal → Except PyExc PyVal) (now : Int) (tok : JwtToken)
    (store : Store) : (Nat × String) × Store :=
  match webhook_try_body exchange now tok store with
  | .ok r => r
  | .error (.invalidSignatureError, s) => ((401, "Invalid signature"), s)
  | .error (.jsonDecodeError _, s) => ((400, "Invalid JSON in payload data"), s)
  | .error (e, s) => ((500, "Internal Server Error: " ++ excMsg e), s)

/-- The refresher's per-record guard (app.py line 124):
`data['access_token'] and data['expires_at'] - current_time < 3600`. -/
def refresh_due (r : Record) (now : Int) : Bool :=
  truthy r.access_token && decide (r.expires_at - now < 3600)

/-- One iteration of the sweep body over the snapshot
`list(app_instance_data.items())` (app.py lines 123-129).  Returns the updated
entries and, when a token-exchange call raises, the exception: in that case the
thread dies and the remaining entries keep their records untouched. -/
def tick_entries (exchange : PyVal → Except PyExc PyVal) (now : Int) :
    List (PyVal × Record) → List (PyVal × Record) × Option PyExc
  | [] => ([], none)
  | (id, rec) :: rest =>
    if refresh_due rec now then
      match exchange id with
      | .error e => ((id, rec) :: rest, some e)
      | .ok new_token =>
        let rec2 := if truthy new_token then
            { rec with access_token := new_token, expires_at := now + 14400 } else rec
        let tailRes := tick_entries exchange now rest
        ((id, rec2) :: tailRes.1, tailRes.2)
    else
      let tailRes := tick_entries exchange now rest
      ((id, rec) :: tailRes.1, tailRes.2)

/-- One sweep of `token_refresher_task` at instant `now`: the store after the
loop body has run over every entry. -/
def tick (exchange : PyVal → Except PyExc PyVal) (now : Int) (s : Store) : Store :=
  (tick_entries exchange now s).1

/-- The tenant ids for which one sweep at instant `now` calls the
token-exchange client, in visit order (a raising call ends the sweep). -/
def tick_attempts (exchange : PyVal → Except PyExc PyVal) (now : Int) :
    List (PyVal × Record) → List PyVal
  | [] => []
  | (id, rec) :: rest =>
    if refresh_due rec now then
      match exchange id with
      | .error _ => [id]
      | .ok _ => id :: tick_attempts exchange now rest
    else tick_attempts exchange now rest

/-- Action of one sweep on a single entry when the exchange call returns
(does not raise): refresh the record exactly when it is due and the new token
is truthy. -/
def refresh_entry (exchange : PyVal → Except PyExc PyVal) (now : Int) (id : PyVal)
    (rec : Record) : Record :=
  if refresh_due rec now then
    match exchange id with
    | .ok t => if truthy t then { rec with access_token := t, expires_at := now + 14400 } else rec
    | .error _ => rec
  else rec

/-- An exchange function that returns on every input (its `get_access_token`
call never raises). -/
def NoRaise (exchange : PyVal → Except PyExc PyVal) : Prop :=
  ∀ id, ∃ v, exchange id = .ok v

/-- Well-formedness of the store dictionary: every key is hashable (Python
enforces this at insertion) and keys are pairwise distinct (a dict holds one
entry per key). -/
def StoreWF (s : Store) : Prop :=
  (∀ p ∈ s, hashable p.1 = true) ∧ s.Pairwise (fun p q => pyKeyEq p.1 q.1 = false)

/-- Token-expiry property of a store: every record holding a non-null access
token has a positive expiry instant. -/
def StoreTokenPos (s : Store) : Prop :=
  ∀ p ∈ s, p.2.access_token ≠ .vNone → 0 < p.2.expires_at

/-! ## Store lemmas -/

theorem pyKeyEq_refl {k : PyVal} (h : hashable k = true) : pyKeyEq k k = true := by
  cases k <;> simp_all [pyKeyEq, hashable, pyNumVal]

theorem storeGet_storeSet_self (s : Store) {k : PyVal} (h : hashable k = true) (v : Record) :
    storeGet (storeSet s k v) k = some v := by
  induction s with
  | nil => simp [storeSet, storeGet, pyKeyEq_refl h]
  | cons p rest ih =>
    by_cases hk : pyKeyEq p.1 k = true
    · simp [storeSet, storeGet, hk]
    · simp [storeSet, storeGet, hk, ih]

theorem storeSet_storeSet_self (s : Store) {k : PyVal} (h : hashable k = true)
    (v w : Record) : storeSet (storeSet s k v) k w = storeSet s k w := by
  induction s with
  | nil => simp [storeSet, pyKeyEq_refl h]
  | cons p rest ih =>
    by_cases hk : pyKeyEq p.1 k = true
    · simp [storeSet, hk]
    · simp [storeSet, hk, ih]

theorem storeGet_of_mem {s : Store} {k : PyVal} {r : Record} (hwf : StoreWF s)
    (hmem : (k, r) ∈ s) : storeGet s k = some r := by
  induction s with
  | nil => cases hmem
  | cons p rest ih =>
    obtain ⟨hhash, hpair⟩ := hwf
    rcases List.mem_cons.mp hmem with heq | htail
    · subst heq
      simp [storeGet, pyKeyEq_refl (hhash (k, r) (List.mem_cons_self _ _))]
    · have hne : pyKeyEq p.1 k = false := by
        have := (List.pairwise_cons.mp hpair).1 (k, r) htail
        exact this
      simp [storeGet, hne]
      exact ih ⟨fun q hq => hhash q (List.mem_cons_of_mem _ hq),
        (List.pairwise_cons.mp hpair).2⟩ htail

theorem store_unique_val {s : Store} {k : PyVal} {r r' : Record} (hwf : StoreWF s)
    (h1 : (k, r) ∈ s) (h2 : (k, r') ∈ s) : r = r' := by
  have e1 := storeGet_of_mem hwf h1
  have e2 := storeGet_of_mem hwf h2
  rw [e1] at e2
  exact Option.some.inj e2

theorem mem_storeSet {s : Store} {k : PyVal} {v : Record} {p : PyVal × Record}
    (h : p ∈ storeSet s k v) : p ∈ s ∨ p.2 = v := by
  induction s with
  | nil =>
    simp [storeSet] at h
    subst h
    exact Or.inr rfl
  | cons q rest ih =>
    by_cases hk : pyKeyEq q.1 k = true
    · simp [storeSet, hk] at h
      rcases h with h | h
      · subst h
        exact Or.inr rfl
      · exact Or.inl (List.mem_cons_of_mem _ h)
    · simp [storeSet, hk] at h
      rcases h with h | h
      · subst h
        exact Or.inl (List.mem_cons_self _ _)
      · rcases ih h with h' | h'
        · exact Or.inl (List.mem_cons_of_mem _ h')
        · exact Or.inr h'

/-! ## Small reduction lemmas -/

theorem truthy_vStr (s : String) : truthy (.vStr s) = decide (s ≠ "") := rfl

theorem hashable_vStr (s : String) : hashable (.vStr s) = true := rfl

/-! ## Claims about the webhook verifier -/

/-- C5: a token whose signature segment is corrupted — so that the signature no
longer verifies under the pinned RS256 public key, the header being untouched —
is answered with `401` / "Invalid signature" and the store is returned exactly
as it was: no record is created, overwritten or modified. -/
theorem C5_corrupted_signature_rejected (ex : PyVal → Except PyExc PyVal) (now : Int)
    (tok : JwtToken) (s : Store) (halg : tok.alg = "RS256") (hsig : tok.sigValid = false) :
    handle_wix_webhook ex now tok s = ((401, "Invalid signature"), s) := by
  simp [handle_wix_webhook, webhook_try_body, jwt_decode, halg, hsig]

theorem C5_witness :
    (⟨"RS256", [("data", PyVal.vStr "x")], false⟩ : JwtToken).alg = "RS256" ∧
    (⟨"RS256", [("data", PyVal.vStr "x")], false⟩ : JwtToken).sigValid = false ∧
    handle_wix_webhook (fun _ => .ok .vNone) 0 ⟨"RS256", [("data", PyVal.vStr "x")], false⟩
      [(.vStr "abc", ⟨.vStr "abc", .vStr "tok", 500⟩)]
      = ((401, "Invalid signature"), [(.vStr "abc", ⟨.vStr "abc", .vStr "tok", 500⟩)]) :=
  ⟨rfl, rfl, C5_corrupted_signature_rejected _ 0 _ _ rfl rfl⟩

/-- C1 (amended): a wrong verification key or a tampered payload (signature
verification failure under the pinned algorithm) yields `401` / "Invalid
signature", but a substituted/unsupported signing algorithm raises
`InvalidAlgorithmError`, which only the handler's generic clause catches,
producing a `500` (store unchanged in both cases). -/
theorem C1_signature_failure_statuses :
    (∀ (ex : PyVal → Except PyExc PyVal) (now : Int) (tok : JwtToken) (s : Store),
      tok.alg = "RS256" → tok.sigValid = false →
      handle_wix_webhook ex now tok s = ((401, "Invalid signature"), s))
    ∧ (∀ (ex : PyVal → Except PyExc PyVal) (now : Int) (tok : JwtToken) (s : Store),
      tok.alg ≠ "RS256" →
      (handle_wix_webhook ex now tok s).1.1 = 500 ∧ (handle_wix_webhook ex now tok s).2 = s) := by
  constructor
  · intro ex now tok s halg hsig
    simp [handle_wix_webhook, webhook_try_body, jwt_decode, halg, hsig]
  · intro ex now tok s halg
    simp [handle_wix_webhook, webhook_try_body, jwt_decode, halg]

/-- C1, counterexample: a token presenting header algorithm `HS256` (an
algorithm-substitution attempt; its signature cannot verify under the pinned
RS256 public key) is answered with a `500`, not with `401` / "Invalid
signature". -/
theorem C1_cex_alg_substitution :
    (handle_wix_webhook (fun _ => .ok .vNone) 0
        ⟨"HS256", [("data", PyVal.vStr "\x7b\"instanceId\": \"abc\"\x7d")], false⟩ []).1
      ≠ (401, "Invalid signature")
    ∧ (handle_wix_webhook (fun _ => .ok .vNone) 0
        ⟨"HS256", [("data", PyVal.vStr "\x7b\"instanceId\": \"abc\"\x7d")], false⟩ []).1.1 = 500 :=
  ⟨by decide, rfl⟩

theorem C1_witness :
    ("HS256" : String) ≠ "RS256" ∧
    (handle_wix_webhook (fun _ => .ok .vNone) 7 ⟨"HS256", [], true⟩ []).1.1 = 500 ∧
    (handle_wix_webhook (fun _ => .ok .vNone) 7 ⟨"HS256", [], true⟩ []).2 = [] ∧
    handle_wix_webhook (fun _ => .ok .vNone) 7 ⟨"RS256", [], false⟩ []
      = ((401, "Invalid signature"), []) :=
  ⟨by decide,
   (C1_signature_failure_statuses.2 (fun _ => .ok .vNone) 7 ⟨"HS256", [], true⟩ [] (by decide)).1,
   (C1_signature_failure_statuses.2 (fun _ => .ok .vNone) 7 ⟨"HS256", [], true⟩ [] (by decide)).2,
   C1_signature_failure_statuses.1 (fun _ => .ok .vNone) 7 ⟨"RS256", [], false⟩ [] rfl rfl⟩

/-- C10: a validly signed token whose payload carries a `data` field that is
present but falsy (the empty string, JSON `null`, and every other falsy value)
is answered exactly like an absent field: `(400, "Payload missing data field")`,
store unchanged — not with the "Invalid JSON in payload data" response. -/
theorem C10_falsy_data_field (ex : PyVal → Except PyExc PyVal) (now : Int)
    (tok : JwtToken) (s : Store) (halg : tok.alg = "RS256") (hsig : tok.sigValid = true)
    (hfalsy : truthy (dict_get tok.payload "data") = false) :
    handle_wix_webhook ex now tok s = ((400, "Payload missing data field"), s) := by
  simp [handle_wix_webhook, webhook_try_body, jwt_decode, halg, hsig, hfalsy]

theorem C10_witness :
    truthy (dict_get ([("data", PyVal.vStr "")]) "data") = false ∧
    truthy (dict_get ([("data", PyVal.vNone)]) "data") = false ∧
    handle_wix_webhook (fun _ => .ok .vNone) 0 ⟨"RS256", [("data", PyVal.vStr "")], true⟩ []
      = ((400, "Payload missing data field"), []) ∧
    handle_wix_webhook (fun _ => .ok .vNone) 0 ⟨"RS256", [("data", PyVal.vNone)], true⟩ []
      = ((400, "Payload missing data field"), []) :=
  ⟨rfl, rfl,
   C10_falsy_data_field _ 0 _ _ rfl rfl rfl,
   C10_falsy_data_field _ 0 _ _ rfl rfl rfl⟩

/-! ## Claims about the token-exchange client -/

/-- C3 (amended): the token-exchange client returns `None` rather than raising
on a transport failure, on a 4xx/5xx response, on a response whose body fails
to parse as JSON, and on a non-error response whose JSON body is an object —
in particular an object body missing the `access_token` field yields `None`.
(A non-error response whose JSON body is not an object makes it raise, see the
counterexample.) -/
theorem C3_exchange_absorbs_failures :
    (∀ m, get_access_token (.transportError m) = .ok .vNone)
    ∧ (∀ st body, 400 ≤ st → st < 600 → get_access_token (.response st body) = .ok .vNone)
    ∧ (∀ st m, ¬(400 ≤ st ∧ st < 600) →
        get_access_token (.response st (.error m)) = .ok .vNone)
    ∧ (∀ st d, ¬(400 ≤ st ∧ st < 600) →
        get_access_token (.response st (.ok (.vDict d))) = .ok (dict_get d "access_token"))
    ∧ (∀ st d, ¬(400 ≤ st ∧ st < 600) → dict_get d "access_token" = .vNone →
        get_access_token (.response st (.ok (.vDict d))) = .ok .vNone) := by
  refine ⟨fun m => rfl, fun st body h1 h2 => ?_, fun st m h => ?_, fun st d h => ?_,
    fun st d h hmiss => ?_⟩
  · simp [get_access_token, h1, h2]
  · simp [get_access_token, h]
  · simp [get_access_token, h]
  · simp [get_access_token, h, hmiss]

/-- C3, counterexample: a `200` response whose body is valid JSON but not an
object — here the empty array, a body certainly missing the `access_token`
field — makes `get_access_token` raise `AttributeError` instead of returning
`None`. -/
theorem C3_cex_nonobject_body_raises :
    get_access_token (.response 200 (.ok (.vList [])))
      = .error (.attributeError "object has no attribute get") := rfl

theorem C3_witness :
    ((400:Nat) ≤ 503 ∧ (503:Nat) < 600) ∧ ¬((400:Nat) ≤ 200 ∧ (200:Nat) < 600) ∧
    get_access_token (.transportError "connection refused") = .ok .vNone ∧
    get_access_token (.response 503 (.ok (.vDict []))) = .ok .vNone ∧
    get_access_token (.response 200 (.error "bad json")) = .ok .vNone ∧
    get_access_token (.response 200 (.ok (.vDict [("x", .vInt 1)]))) = .ok .vNone :=
  ⟨by decide, by decide,
   C3_exchange_absorbs_failures.1 "connection refused",
   C3_exchange_absorbs_failures.2.1 503 _ (by decide) (by decide),
   C3_exchange_absorbs_failures.2.2.1 200 _ (by decide),
   C3_exchange_absorbs_failures.2.2.2.2 200 _ (by decide) rfl⟩

/-- C2 (amended): for a validly signed token whose payload's `data` field is a
JSON-encoded string parsing to an object with a non-empty string `instanceId`,
and whose token-exchange call returns (with any value), the handler answers
`(200, "Webhook processed successfully")` and the store afterwards contains a
record keyed by that tenant id.  (A `data` field that is an embedded,
already-structured object instead raises `TypeError` inside `json.loads` and
is answered with a `500`, see the counterexample.) -/
theorem C2_json_string_admission
    (ex : PyVal → Except PyExc PyVal) (now : Int) (tok : JwtToken) (s : Store)
    (ds : String) (d : List (String × PyVal)) (iid : String) (t : PyVal)
    (halg : tok.alg = "RS256") (hsig : tok.sigValid = true)
    (hdata : dict_get tok.payload "data" = .vStr ds)
    (hjson : json_loads ds = .ok (.vDict d))
    (hinst : dict_get d "instanceId" = .vStr iid) (hiid : iid ≠ "")
    (hex : ex (.vStr iid) = .ok t) :
    (handle_wix_webhook ex now tok s).1 = (200, "Webhook processed successfully")
    ∧ ∃ r, storeGet (handle_wix_webhook ex now tok s).2 (.vStr iid) = some r := by
  have hds : ds ≠ "" := by
    intro h
    rw [h, show json_loads "" = Except.error "Expecting value" from rfl] at hjson
    exact Except.noConfusion hjson
  simp [handle_wix_webhook, webhook_try_body, jwt_decode, halg, hsig]
  rw [hdata]
  simp [json_loads_py, hjson, py_attr_get, hinst, truthy_vStr, hds, hiid, hashable_vStr,
    admit_instance, hex]
  by_cases ht : truthy t = true
  · simp [ht]
    refine ⟨_, storeGet_storeSet_self _ ?_ _⟩
    rfl
  · simp only [Bool.not_eq_true] at ht
    simp [ht]
    refine ⟨_, storeGet_storeSet_self _ ?_ _⟩
    rfl

/-- C2, counterexample: a validly signed token whose `data` field is an
embedded (already-structured) object carrying an `instanceId` is answered with
a `500` — the `TypeError` raised by `json.loads` on a dict falls to the
generic clause — not `200`, and no record is stored. -/
theorem C2_cex_embedded_object :
    (handle_wix_webhook (fun _ => .ok (.vStr "tok")) 0
        ⟨"RS256", [("data", PyVal.vDict [("instanceId", PyVal.vStr "abc")])], true⟩ []).1.1 = 500
    ∧ (handle_wix_webhook (fun _ => .ok (.vStr "tok")) 0
        ⟨"RS256", [("data", PyVal.vDict [("instanceId", PyVal.vStr "abc")])], true⟩ []).1
      ≠ (200, "Webhook processed successfully")
    ∧ (handle_wix_webhook (fun _ => .ok (.vStr "tok")) 0
        ⟨"RS256", [("data", PyVal.vDict [("instanceId", PyVal.vStr "abc")])], true⟩ []).2 = [] :=
  ⟨rfl, by decide, rfl⟩

theorem C2_witness :
    json_loads "\x7b\"instanceId\": \"abc\"\x7d" = .ok (.vDict [("instanceId", .vStr "abc")]) ∧
    (handle_wix_webhook (fun _ => .ok (.vStr "tok99")) 100
        ⟨"RS256", [("data", PyVal.vStr "\x7b\"instanceId\": \"abc\"\x7d")], true⟩ []).1
      = (200, "Webhook processed successfully") ∧
    (∃ r, storeGet (handle_wix_webhook (fun _ => .ok (.vStr "tok99")) 100
        ⟨"RS256", [("data", PyVal.vStr "\x7b\"instanceId\": \"abc\"\x7d")], true⟩ []).2
        (.vStr "abc") = some r) :=
  ⟨rfl,
   (C2_json_string_admission (fun _ => .ok (.vStr "tok99")) 100
      ⟨"RS256", [("data", PyVal.vStr "\x7b\"instanceId\": \"abc\"\x7d")], true⟩ []
      "\x7b\"instanceId\": \"abc\"\x7d" [("instanceId", PyVal.vStr "abc")] "abc"
      (PyVal.vStr "tok99") rfl rfl rfl rfl rfl (by decide) rfl).1,
   (C2_json_string_admission (fun _ => .ok (.vStr "tok99")) 100
      ⟨"RS256", [("data", PyVal.vStr "\x7b\"instanceId\": \"abc\"\x7d")], true⟩ []
      "\x7b\"instanceId\": \"abc\"\x7d" [("instanceId", PyVal.vStr "abc")] "abc"
      (PyVal.vStr "tok99") rfl rfl rfl rfl rfl (by decide) rfl).2⟩

/-- C6 (amended): for a validly signed token, an absent `data` field is
answered `(400, "Payload missing data field")`; a `data` field holding a
non-empty string that fails to parse as JSON is answered
`(400, "Invalid JSON in payload data")`; and a `data` string parsing to a JSON
object with no truthy `instanceId` member is answered
`(400, "Payload missing instanceId")`.  (A `data` string parsing to a
non-object JSON value — a case the claim's wording also places under the third
variant — is instead answered with a `500`, see the counterexample.) -/
theorem C6_bad_payload_variants
    (ex : PyVal → Except PyExc PyVal) (now : Int) (tok : JwtToken) (s : Store)
    (halg : tok.alg = "RS256") (hsig : tok.sigValid = true) :
    (dict_get tok.payload "data" = .vNone →
      handle_wix_webhook ex now tok s = ((400, "Payload missing data field"), s))
    ∧ (∀ ds m, dict_get tok.payload "data" = .vStr ds → ds ≠ "" →
        json_loads ds = .error m →
        handle_wix_webhook ex now tok s = ((400, "Invalid JSON in payload data"), s))
    ∧ (∀ ds d, dict_get tok.payload "data" = .vStr ds →
        json_loads ds = .ok (.vDict d) → truthy (dict_get d "instanceId") = false →
        handle_wix_webhook ex now tok s = ((400, "Payload missing instanceId"), s)) := by
  refine ⟨fun habs => ?_, fun ds m hdata hds hjson => ?_, fun ds d hdata hjson hfalsy => ?_⟩
  · simp [handle_wix_webhook, webhook_try_body, jwt_decode, halg, hsig, habs, truthy]
  · simp [handle_wix_webhook, webhook_try_body, jwt_decode, halg, hsig]
    rw [hdata]
    simp [json_loads_py, hjson, truthy_vStr, hds]
  · have hds : ds ≠ "" := by
      intro h
      rw [h, show json_loads "" = Except.error "Expecting value" from rfl] at hjson
      exact Except.noConfusion hjson
    simp [handle_wix_webhook, webhook_try_body, jwt_decode, halg, hsig]
    rw [hdata]
    simp [json_loads_py, hjson, py_attr_get, truthy_vStr, hds, hfalsy]

/-- C6, counterexample: a validly signed token whose `data` string parses to
the JSON array `[1, 2, 3]` — parsed data containing no tenant identifier — is
answered with a `500` (`AttributeError` from `.get` on a list), not with
`(400, "Payload missing instanceId")`. -/
theorem C6_cex_array_payload :
    json_loads "[1, 2, 3]" = .ok (.vList [.vInt 1, .vInt 2, .vInt 3])
    ∧ (handle_wix_webhook (fun _ => .ok .vNone) 0
        ⟨"RS256", [("data", PyVal.vStr "[1, 2, 3]")], true⟩ []).1.1 = 500
    ∧ (handle_wix_webhook (fun _ => .ok .vNone) 0
        ⟨"RS256", [("data", PyVal.vStr "[1, 2, 3]")], true⟩ []).1
      ≠ (400, "Payload missing instanceId") :=
  ⟨rfl, rfl, by decide⟩

theorem C6_witness :
    (json_loads "not json").isOk = false ∧
    truthy (dict_get [("id", PyVal.vStr "abc")] "instanceId") = false ∧
    handle_wix_webhook (fun _ => .ok .vNone) 0 ⟨"RS256", [("x", PyVal.vInt 1)], true⟩ []
      = ((400, "Payload missing data field"), []) ∧
    handle_wix_webhook (fun _ => .ok .vNone) 0
        ⟨"RS256", [("data", PyVal.vStr "not json")], true⟩ []
      = ((400, "Invalid JSON in payload data"), []) ∧
    handle_wix_webhook (fun _ => .ok .vNone) 0
        ⟨"RS256", [("data", PyVal.vStr "\x7b\"id\": \"abc\"\x7d")], true⟩ []
      = ((400, "Payload missing instanceId"), []) :=
  ⟨rfl, rfl,
   (C6_bad_payload_variants (fun _ => .ok .vNone) 0 ⟨"RS256", [("x", PyVal.vInt 1)], true⟩ []
      rfl rfl).1 rfl,
   (C6_bad_payload_variants (fun _ => .ok .vNone) 0
      ⟨"RS256", [("data", PyVal.vStr "not json")], true⟩ [] rfl rfl).2.1
      "not json" "Expecting value" rfl (by decide) rfl,
   (C6_bad_payload_variants (fun _ => .ok .vNone) 0
      ⟨"RS256", [("data", PyVal.vStr "\x7b\"id\": \"abc\"\x7d")], true⟩ [] rfl rfl).2.2
      "\x7b\"id\": \"abc\"\x7d" [("id", PyVal.vStr "abc")] rfl rfl rfl⟩

theorem truthy_ne_vNone {v : PyVal} (h : truthy v = true) : v ≠ .vNone := by
  intro he
  rw [he] at h
  simp [truthy] at h

theorem tick_entries_noRaise (ex : PyVal → Except PyExc PyVal) (now : Int) (s : Store)
    (hex : NoRaise ex) :
    tick_entries ex now s = (s.map (fun p => (p.1, refresh_entry ex now p.1 p.2)), none) := by
  induction s with
  | nil => rfl
  | cons p rest ih =>
    obtain ⟨id, rec⟩ := p
    obtain ⟨v, hv⟩ := hex id
    by_cases hdue : refresh_due rec now = true
    · simp [tick_entries, refresh_entry, hdue, hv, ih]
    · simp only [Bool.not_eq_true] at hdue
      simp [tick_entries, refresh_entry, hdue, ih]

theorem tick_eq_map (ex : PyVal → Except PyExc PyVal) (now : Int) (s : Store)
    (hex : NoRaise ex) :
    tick ex now s = s.map (fun p => (p.1, refresh_entry ex now p.1 p.2)) := by
  simp [tick, tick_entries_noRaise ex now s hex]

theorem tick_attempts_eq_filter (ex : PyVal → Except PyExc PyVal) (now : Int) (s : Store)
    (hex : NoRaise ex) :
    tick_attempts ex now s = (s.filter (fun p => refresh_due p.2 now)).map Prod.fst := by
  induction s with
  | nil => rfl
  | cons p rest ih =>
    obtain ⟨id, rec⟩ := p
    obtain ⟨v, hv⟩ := hex id
    by_cases hdue : refresh_due rec now = true
    · simp [tick_attempts, hdue, hv, ih, List.filter_cons]
    · simp only [Bool.not_eq_true] at hdue
      simp [tick_attempts, hdue, ih, List.filter_cons]

theorem storeGet_map_of_mem {s : Store} {k : PyVal} {r : Record}
    (f : PyVal → Record → Record) (hwf : StoreWF s) (hmem : (k, r) ∈ s) :
    storeGet (s.map (fun p => (p.1, f p.1 p.2))) k = some (f k r) := by
  induction s with
  | nil => cases hmem
  | cons p rest ih =>
    obtain ⟨hhash, hpair⟩ := hwf
    rcases List.mem_cons.mp hmem with heq | htail
    · subst heq
      simp [storeGet, pyKeyEq_refl (hhash _ (List.mem_cons_self _ _))]
    · have hne : pyKeyEq p.1 k = false := (List.pairwise_cons.mp hpair).1 (k, r) htail
      simp [storeGet, hne]
      exact ih ⟨fun q hq => hhash q (List.mem_cons_of_mem _ hq),
        (List.pairwise_cons.mp hpair).2⟩ htail

theorem mem_tick_attempts {ex : PyVal → Except PyExc PyVal} {now : Int} {s : Store}
    {id : PyVal} {rec : Record} (hex : NoRaise ex) (hwf : StoreWF s) (hmem : (id, rec) ∈ s) :
    id ∈ tick_attempts ex now s ↔ refresh_due rec now = true := by
  rw [tick_attempts_eq_filter ex now s hex]
  constructor
  · intro h
    obtain ⟨p, hp, hfst⟩ := List.mem_map.mp h
    have hpmem := List.mem_filter.mp hp
    obtain ⟨k2, r2⟩ := p
    cases hfst
    have hr := store_unique_val hwf hmem hpmem.1
    rw [hr]
    exact hpmem.2
  · intro h
    exact List.mem_map.mpr ⟨(id, rec), List.mem_filter.mpr ⟨hmem, h⟩, rfl⟩

/-- C4: in one sweep at instant `now` over a store (with well-formed keys and
records whose token is either null or truthy, as the program maintains), a
token exchange is attempted for a record exactly when its `access_token` is
non-null and `expires_at - now < 3600`; in particular a record with
`expires_at = now + 1800` and a non-null token is attempted and one with
`expires_at = now + 7200` is not; and a successful exchange replaces the
record's token and resets `expires_at` to `now + 14400`. -/
theorem C4_refresh_guard
    (ex : PyVal → Except PyExc PyVal) (now : Int) (s : Store) (id : PyVal) (rec : Record)
    (hex : NoRaise ex) (hwf : StoreWF s) (hmem : (id, rec) ∈ s)
    (hshape : rec.access_token = .vNone ∨ truthy rec.access_token = true) :
    (id ∈ tick_attempts ex now s ↔
      (rec.access_token ≠ .vNone ∧ rec.expires_at - now < 3600))
    ∧ (rec.expires_at = now + 1800 → rec.access_token ≠ .vNone → id ∈ tick_attempts ex now s)
    ∧ (rec.expires_at = now + 7200 → id ∉ tick_attempts ex now s)
    ∧ (∀ t, ex id = .ok t → truthy t = true → rec.access_token ≠ .vNone →
        rec.expires_at - now < 3600 →
        storeGet (tick ex now s) id
          = some { rec with access_token := t, expires_at := now + 14400 }) := by
  have hdue : refresh_due rec now = true ↔
      (rec.access_token ≠ .vNone ∧ rec.expires_at - now < 3600) := by
    rcases hshape with h | h
    · simp [refresh_due, h, truthy]
    · have hne : rec.access_token ≠ .vNone := truthy_ne_vNone h
      simp [refresh_due, h, hne]
  have hiff := (mem_tick_attempts hex hwf hmem).trans hdue
  refine ⟨hiff, ?_, ?_, ?_⟩
  · intro h1800 hne
    exact hiff.mpr ⟨hne, by rw [h1800]; omega⟩
  · intro h7200 hmemat
    have := (hiff.mp hmemat).2
    rw [h7200] at this
    omega
  · intro t hext htt hne hlt
    rw [tick_eq_map ex now s hex,
      storeGet_map_of_mem (refresh_entry ex now) hwf hmem]
    simp [refresh_entry, hdue.mpr ⟨hne, hlt⟩, hext, htt]

theorem C4_witness :
    ((PyVal.vStr "a", (⟨PyVal.vStr "a", PyVal.vStr "ta", 2800⟩ : Record)) ∈
      ([(PyVal.vStr "a", ⟨PyVal.vStr "a", PyVal.vStr "ta", 2800⟩)] : Store)) ∧
    ((2800 : Int) = 1000 + 1800) ∧
    (PyVal.vStr "a" ∈ tick_attempts (fun _ => .ok (.vStr "nt")) 1000
      [(PyVal.vStr "a", ⟨PyVal.vStr "a", PyVal.vStr "ta", 2800⟩)]) ∧
    storeGet (tick (fun _ => .ok (.vStr "nt")) 1000
        [(PyVal.vStr "a", ⟨PyVal.vStr "a", PyVal.vStr "ta", 2800⟩)]) (PyVal.vStr "a")
      = some ⟨PyVal.vStr "a", PyVal.vStr "nt", 1000 + 14400⟩ := by
  have hwf : StoreWF [(PyVal.vStr "a", ⟨PyVal.vStr "a", PyVal.vStr "ta", 2800⟩)] := by
    constructor
    · intro p hp
      rw [List.mem_singleton] at hp
      subst hp
      rfl
    · exact List.pairwise_singleton _ _
  have hmem : (PyVal.vStr "a", (⟨PyVal.vStr "a", PyVal.vStr "ta", 2800⟩ : Record)) ∈
      ([(PyVal.vStr "a", ⟨PyVal.vStr "a", PyVal.vStr "ta", 2800⟩)] : Store) :=
    List.mem_singleton.mpr rfl
  have h := C4_refresh_guard (fun _ => .ok (.vStr "nt")) 1000
    [(PyVal.vStr "a", ⟨PyVal.vStr "a", PyVal.vStr "ta", 2800⟩)]
    (PyVal.vStr "a") ⟨PyVal.vStr "a", PyVal.vStr "ta", 2800⟩
    (fun _ => ⟨_, rfl⟩) hwf hmem (Or.inr rfl)
  refine ⟨hmem, by decide, ?_, ?_⟩
  · exact h.2.1 (by decide) (fun he => PyVal.noConfusion he)
  · exact h.2.2.2 (PyVal.vStr "nt") rfl rfl (fun he => PyVal.noConfusion he) (by decide)

/-- C7: within a single sweep, tenant A's exchange returning an absent (falsy)
token leaves A's record exactly as it was while tenant B's successful exchange
updates B's record to the new token with `expires_at = now + 14400`; the sweep
keeps every tenant's entry (same keys in the same order) and attempts exactly
the due tenants, so one tenant's failure aborts nothing. -/
theorem C7_failure_isolation
    (ex : PyVal → Except PyExc PyVal) (now : Int) (s : Store)
    (a b : PyVal) (ra rb : Record) (va vb : PyVal)
    (hwf : StoreWF s) (hex : NoRaise ex)
    (hma : (a, ra) ∈ s) (hmb : (b, rb) ∈ s)
    (hexa : ex a = .ok va) (hva : truthy va = false)
    (hexb : ex b = .ok vb) (hvb : truthy vb = true)
    (hdueb : refresh_due rb now = true) :
    storeGet (tick ex now s) a = some ra
    ∧ storeGet (tick ex now s) b
        = some { rb with access_token := vb, expires_at := now + 14400 }
    ∧ (tick ex now s).map Prod.fst = s.map Prod.fst
    ∧ tick_attempts ex now s = (s.filter (fun p => refresh_due p.2 now)).map Prod.fst := by
  refine ⟨?_, ?_, ?_, tick_attempts_eq_filter ex now s hex⟩
  · rw [tick_eq_map ex now s hex, storeGet_map_of_mem (refresh_entry ex now) hwf hma]
    by_cases hdue : refresh_due ra now = true
    · simp [refresh_entry, hdue, hexa, hva]
    · simp only [Bool.not_eq_true] at hdue
      simp [refresh_entry, hdue]
  · rw [tick_eq_map ex now s hex, storeGet_map_of_mem (refresh_entry ex now) hwf hmb]
    simp [refresh_entry, hdueb, hexb, hvb]
  · rw [tick_eq_map ex now s hex, List.map_map]
    simp [Function.comp]

theorem C7_witness :
    ((fun i => (Except.ok (if pyKeyEq i (.vStr "b") then PyVal.vStr "nb" else PyVal.vNone) : Except PyExc PyVal))
        (PyVal.vStr "a") = .ok PyVal.vNone) ∧
    ((fun i => (Except.ok (if pyKeyEq i (.vStr "b") then PyVal.vStr "nb" else PyVal.vNone) : Except PyExc PyVal))
        (PyVal.vStr "b") = .ok (PyVal.vStr "nb")) ∧
    storeGet (tick
        (fun i => (Except.ok (if pyKeyEq i (.vStr "b") then PyVal.vStr "nb" else PyVal.vNone) : Except PyExc PyVal))
        1000
        [(PyVal.vStr "a", ⟨PyVal.vStr "a", PyVal.vStr "ta", 2000⟩),
         (PyVal.vStr "b", ⟨PyVal.vStr "b", PyVal.vStr "tb", 1500⟩)]) (PyVal.vStr "a")
      = some ⟨PyVal.vStr "a", PyVal.vStr "ta", 2000⟩ ∧
    storeGet (tick
        (fun i => (Except.ok (if pyKeyEq i (.vStr "b") then PyVal.vStr "nb" else PyVal.vNone) : Except PyExc PyVal))
        1000
        [(PyVal.vStr "a", ⟨PyVal.vStr "a", PyVal.vStr "ta", 2000⟩),
         (PyVal.vStr "b", ⟨PyVal.vStr "b", PyVal.vStr "tb", 1500⟩)]) (PyVal.vStr "b")
      = some ⟨PyVal.vStr "b", PyVal.vStr "nb", 1000 + 14400⟩ ∧
    (tick (fun i => (Except.ok (if pyKeyEq i (.vStr "b") then PyVal.vStr "nb" else PyVal.vNone) : Except PyExc PyVal))
        1000
        [(PyVal.vStr "a", ⟨PyVal.vStr "a", PyVal.vStr "ta", 2000⟩),
         (PyVal.vStr "b", ⟨PyVal.vStr "b", PyVal.vStr "tb", 1500⟩)]).map Prod.fst
      = [PyVal.vStr "a", PyVal.vStr "b"] := by
  have hwf : StoreWF [(PyVal.vStr "a", ⟨PyVal.vStr "a", PyVal.vStr "ta", 2000⟩),
      (PyVal.vStr "b", ⟨PyVal.vStr "b", PyVal.vStr "tb", 1500⟩)] := by
    constructor
    · intro p hp
      rcases List.mem_cons.mp hp with h | h
      · subst h; rfl
      · rw [List.mem_singleton] at h
        subst h; rfl
    · refine List.Pairwise.cons ?_ (List.pairwise_singleton _ _)
      intro q hq
      rw [List.mem_singleton] at hq
      subst hq
      rfl
  have h := C7_failure_isolation
    (fun i => (Except.ok (if pyKeyEq i (.vStr "b") then PyVal.vStr "nb" else PyVal.vNone) : Except PyExc PyVal))
    1000
    [(PyVal.vStr "a", ⟨PyVal.vStr "a", PyVal.vStr "ta", 2000⟩),
     (PyVal.vStr "b", ⟨PyVal.vStr "b", PyVal.vStr "tb", 1500⟩)]
    (PyVal.vStr "a") (PyVal.vStr "b")
    ⟨PyVal.vStr "a", PyVal.vStr "ta", 2000⟩ ⟨PyVal.vStr "b", PyVal.vStr "tb", 1500⟩
    PyVal.vNone (PyVal.vStr "nb")
    hwf (fun i => ⟨_, rfl⟩)
    (List.mem_cons_self _ _) (List.mem_cons_of_mem _ (List.mem_singleton.mpr rfl))
    rfl rfl rfl rfl rfl
  exact ⟨rfl, rfl, h.1, h.2.1, by rw [h.2.2.1]; rfl⟩

/-- C8: admission is idempotent in the reset sense.  A successful admission of
a tenant id first overwrites its record with a null token and zero expiry, so
after admitting the same id twice in succession the record reflects only the
second admission's exchange outcome — the new token with
`expires_at = now2 + 14400` when the second exchange returns a truthy token,
the reset record otherwise (also when the second exchange call raises), with
nothing merged from the first admission. -/
theorem C8_admission_resets
    (ex1 ex2 : PyVal → Except PyExc PyVal) (now1 now2 : Int) (id : PyVal) (s s1 : Store)
    (t1 : PyVal) (hh : hashable id = true)
    (hex1 : ex1 id = .ok t1)
    (hadm1 : admit_instance ex1 now1 id s = .ok s1) :
    (∀ t2, ex2 id = .ok t2 →
      ∃ s2, admit_instance ex2 now2 id s1 = .ok s2 ∧
        storeGet s2 id
          = some (if truthy t2 then ⟨id, t2, now2 + 14400⟩ else ⟨id, .vNone, 0⟩))
    ∧ (∀ e, ex2 id = .error e →
      ∃ s2, admit_instance ex2 now2 id s1 = .error (e, s2) ∧
        storeGet s2 id = some ⟨id, .vNone, 0⟩) := by
  simp only [admit_instance, hex1, Except.ok.injEq] at hadm1
  have hreset : storeSet s1 id ⟨id, .vNone, 0⟩ = storeSet s id ⟨id, .vNone, 0⟩ := by
    rw [← hadm1]
    by_cases ht1 : truthy t1 = true
    · rw [if_pos ht1, storeSet_storeSet_self _ hh, storeSet_storeSet_self _ hh]
    · rw [if_neg ht1, storeSet_storeSet_self _ hh]
  constructor
  · intro t2 hex2
    refine ⟨if truthy t2 = true then
        storeSet (storeSet s1 id ⟨id, .vNone, 0⟩) id ⟨id, t2, now2 + 14400⟩
      else storeSet s1 id ⟨id, .vNone, 0⟩, ?_, ?_⟩
    · simp only [admit_instance, hex2]
    · by_cases ht2 : truthy t2 = true
      · rw [if_pos ht2, if_pos ht2]
        exact storeGet_storeSet_self _ hh _
      · rw [if_neg ht2, if_neg ht2, hreset]
        exact storeGet_storeSet_self _ hh _
  · intro e hex2
    refine ⟨storeSet s1 id ⟨id, .vNone, 0⟩, ?_, ?_⟩
    · simp only [admit_instance, hex2]
    · rw [hreset]
      exact storeGet_storeSet_self _ hh _

theorem C8_witness :
    hashable (PyVal.vStr "i") = true ∧
    admit_instance (fun _ => (.ok (PyVal.vStr "t1") : Except PyExc PyVal)) 50 (PyVal.vStr "i") []
      = .ok [(PyVal.vStr "i", ⟨PyVal.vStr "i", PyVal.vStr "t1", 50 + 14400⟩)] ∧
    (∃ s2, admit_instance (fun _ => (.ok PyVal.vNone : Except PyExc PyVal)) 90 (PyVal.vStr "i")
        [(PyVal.vStr "i", ⟨PyVal.vStr "i", PyVal.vStr "t1", 50 + 14400⟩)] = .ok s2 ∧
      storeGet s2 (PyVal.vStr "i")
        = some (if truthy PyVal.vNone then ⟨PyVal.vStr "i", PyVal.vNone, 90 + 14400⟩
            else ⟨PyVal.vStr "i", PyVal.vNone, 0⟩)) :=
  ⟨rfl, rfl,
   (C8_admission_resets (fun _ => .ok (PyVal.vStr "t1")) (fun _ => .ok PyVal.vNone) 50 90
      (PyVal.vStr "i") [] [(PyVal.vStr "i", ⟨PyVal.vStr "i", PyVal.vStr "t1", 50 + 14400⟩)]
      (PyVal.vStr "t1") rfl rfl rfl).1 PyVal.vNone rfl⟩

theorem mem_tick_store {ex : PyVal → Except PyExc PyVal} {now : Int} {s : Store}
    {p : PyVal × Record} (h : p ∈ tick ex now s) :
    p ∈ s ∨ truthy p.2.access_token = true ∧ p.2.expires_at = now + 14400 := by
  induction s with
  | nil => cases h
  | cons q rest ih =>
    obtain ⟨id, rec⟩ := q
    by_cases hdue : refresh_due rec now = true
    · rcases hexv : ex id with e | v
      · simp only [tick, tick_entries, hdue, if_true] at h
        rw [hexv] at h
        exact Or.inl h
      · simp only [tick, tick_entries, hdue, if_true] at h
        rw [hexv] at h
        simp only [List.mem_cons] at h
        rcases h with h | h
        · by_cases htv : truthy v = true
          · rw [if_pos htv] at h
            subst h
            exact Or.inr ⟨htv, rfl⟩
          · rw [if_neg htv] at h
            subst h
            exact Or.inl (List.mem_cons_self _ _)
        · rcases ih h with h' | h'
          · exact Or.inl (List.mem_cons_of_mem _ h')
          · exact Or.inr h'
    · simp only [Bool.not_eq_true] at hdue
      simp only [tick, tick_entries, hdue, Bool.false_eq_true, if_false, List.mem_cons] at h
      rcases h with h | h
      · subst h
        exact Or.inl (List.mem_cons_self _ _)
      · rcases ih h with h' | h'
        · exact Or.inl (List.mem_cons_of_mem _ h')
        · exact Or.inr h'

theorem mem_handle_store {ex : PyVal → Except PyExc PyVal} {now : Int} {tok : JwtToken}
    {s : Store} {p : PyVal × Record} (h : p ∈ (handle_wix_webhook ex now tok s).2) :
    p ∈ s ∨ (p.2.access_token = .vNone ∧ p.2.expires_at = 0)
      ∨ (truthy p.2.access_token = true ∧ p.2.expires_at = now + 14400) := by
  rcases hjd : jwt_decode tok ["RS256"] with e | payload
  · cases e <;> simp only [handle_wix_webhook, webhook_try_body, hjd] at h <;> exact Or.inl h
  · by_cases hdata : truthy (dict_get payload "data") = true
    · rcases hjp : json_loads_py (dict_get payload "data") with e2 | wd
      · cases e2 <;>
          simp only [handle_wix_webhook, webhook_try_body, hjd, hdata, if_true, hjp] at h <;>
          exact Or.inl h
      · rcases hag : py_attr_get wd "instanceId" with e3 | inst
        · cases e3 <;>
            simp only [handle_wix_webhook, webhook_try_body, hjd, hdata, if_true, hjp, hag]
              at h <;>
            exact Or.inl h
        · by_cases hti : truthy inst = true
          · by_cases hhi : hashable inst = true
            · rcases hadm : ex inst with e4 | t
              · cases e4 <;>
                  simp only [handle_wix_webhook, webhook_try_body, admit_instance, hjd, hdata,
                    if_true, hjp, hag, hti, hhi, hadm] at h <;>
                  · rcases mem_storeSet h with hs | hv
                    · exact Or.inl hs
                    · exact Or.inr (Or.inl ⟨by rw [hv], by rw [hv]⟩)
              · by_cases htt : truthy t = true
                · simp only [handle_wix_webhook, webhook_try_body, admit_instance, hjd, hdata,
                    if_true, hjp, hag, hti, hhi, hadm, htt] at h
                  rcases mem_storeSet h with hs | hv
                  · rcases mem_storeSet hs with hs2 | hv2
                    · exact Or.inl hs2
                    · exact Or.inr (Or.inl ⟨by rw [hv2], by rw [hv2]⟩)
                  · exact Or.inr (Or.inr ⟨by rw [hv]; exact htt, by rw [hv]⟩)
                · simp only [handle_wix_webhook, webhook_try_body, admit_instance, hjd, hdata,
                    if_true, hjp, hag, hti, hhi, hadm, htt, Bool.false_eq_true, if_false] at h
                  rcases mem_storeSet h with hs | hv
                  · exact Or.inl hs
                  · exact Or.inr (Or.inl ⟨by rw [hv], by rw [hv]⟩)
            · simp only [handle_wix_webhook, webhook_try_body, hjd, hdata, if_true, hjp, hag,
                hti, hhi, Bool.false_eq_true, if_false] at h
              exact Or.inl h
          · simp only [Bool.not_eq_true] at hti
            simp only [handle_wix_webhook, webhook_try_body, hjd, hdata, if_true, hjp, hag,
              hti, Bool.false_eq_true, if_false] at h
            exact Or.inl h
    · simp only [Bool.not_eq_true] at hdata
      simp only [handle_wix_webhook, webhook_try_body, hjd, hdata, Bool.false_eq_true,
        if_false] at h
      exact Or.inl h

/-- C9: both the admission path (the whole webhook handler) and the refresh
path preserve the store invariant that every record with a non-null
`access_token` has a positive `expires_at`; moreover every record either path
adds or rewrites with a non-null token in a step at instant `now` has
`expires_at = now + 14400`, strictly greater than the instant at which the
token was set. -/
theorem C9_token_expiry_invariant
    (ex : PyVal → Except PyExc PyVal) (now : Int) (tok : JwtToken) (s : Store)
    (hnow : 0 ≤ now) (hinv : StoreTokenPos s) :
    (StoreTokenPos (handle_wix_webhook ex now tok s).2
      ∧ ∀ p ∈ (handle_wix_webhook ex now tok s).2, p ∉ s → p.2.access_token ≠ .vNone →
          now < p.2.expires_at)
    ∧ (StoreTokenPos (tick ex now s)
      ∧ ∀ p ∈ tick ex now s, p ∉ s → p.2.access_token ≠ .vNone →
          now < p.2.expires_at) := by
  refine ⟨⟨?_, ?_⟩, ?_, ?_⟩
  · intro p hp hne
    rcases mem_handle_store hp with hs | ⟨hn, _⟩ | ⟨_, he⟩
    · exact hinv p hs hne
    · exact absurd hn hne
    · rw [he]; omega
  · intro p hp hnotin hne
    rcases mem_handle_store hp with hs | ⟨hn, _⟩ | ⟨_, he⟩
    · exact absurd hs hnotin
    · exact absurd hn hne
    · rw [he]; omega
  · intro p hp hne
    rcases mem_tick_store hp with hs | ⟨_, he⟩
    · exact hinv p hs hne
    · rw [he]; omega
  · intro p hp hnotin hne
    rcases mem_tick_store hp with hs | ⟨_, he⟩
    · exact absurd hs hnotin
    · rw [he]; omega

theorem C9_witness :
    ((0:Int) ≤ 5) ∧ StoreTokenPos [] ∧
    (StoreTokenPos (handle_wix_webhook (fun _ => .ok (.vStr "t")) 5
        ⟨"RS256", [("data", PyVal.vStr "\x7b\"instanceId\": \"i\"\x7d")], true⟩ []).2
      ∧ ∀ p ∈ (handle_wix_webhook (fun _ => .ok (.vStr "t")) 5
          ⟨"RS256", [("data", PyVal.vStr "\x7b\"instanceId\": \"i\"\x7d")], true⟩ []).2,
          p ∉ ([] : Store) → p.2.access_token ≠ .vNone → 5 < p.2.expires_at)
    ∧ (StoreTokenPos (tick (fun _ => .ok (.vStr "t")) 5 [])
      ∧ ∀ p ∈ tick (fun _ => .ok (.vStr "t")) 5 [],
          p ∉ ([] : Store) → p.2.access_token ≠ .vNone → 5 < p.2.expires_at) :=
  ⟨by omega, fun p hp => absurd hp (List.not_mem_nil p),
   C9_token_expiry_invariant (fun _ => .ok (.vStr "t")) 5
     ⟨"RS256", [("data", PyVal.vStr "\x7b\"instanceId\": \"i\"\x7d")], true⟩ []
     (by omega) (fun p hp => absurd hp (List.not_mem_nil p))⟩
